import Mathlib

/-!
Verification of the AutoScan IA damage-analysis core
(`backend/damage_analyzer.py` plus the angle validation in `app.py`).

Probabilities and confidences are modelled as exact rationals (`ℚ`);
the model itself is opaque and appears only as an abstract
`classify` parameter producing a probability vector.
-/

namespace AutoScan

/-- Canonical class order of `self.CLASS_NAMES` in `DamageAnalyzer.__init__`:
index 0 ↦ "01-minor", 1 ↦ "02-moderate", 2 ↦ "03-severe", 3 ↦ "04-no-damage". -/
def CLASS_NAMES : Fin 4 → String
  | 0 => "01-minor"
  | 1 => "02-moderate"
  | 2 => "03-severe"
  | 3 => "04-no-damage"

/-- The `self.CLASS_LABELS` dictionary, keyed (through `CLASS_NAMES`) by class index. -/
def CLASS_LABELS : Fin 4 → String
  | 0 => "Daño Leve"
  | 1 => "Daño Moderado"
  | 2 => "Daño Severo"
  | 3 => "Sin Daño"

/-- The `self.CLASS_DESCRIPTIONS` dictionary, keyed (through `CLASS_NAMES`) by class index. -/
def CLASS_DESCRIPTIONS : Fin 4 → String
  | 0 => "Rayones pequeños, abolladuras leves"
  | 1 => "Abolladuras medias, roturas parciales"
  | 2 => "Estructura comprometida, grandes abolladuras"
  | 3 => "Vehículo en buen estado sin daños visibles"

/-- One step of `np.argmax`'s left-to-right scan: the candidate index `i`
replaces the current best index only on a strictly larger value, so the
first occurrence of the maximum wins. -/
def npArgmaxStep (v : Fin 4 → ℚ) (best i : Fin 4) : Fin 4 :=
  if v i > v best then i else best

/-- Shallow embedding of `np.argmax(prediction_array)` on a 4-vector:
a left fold of `npArgmaxStep` over indices 1, 2, 3 starting from 0. -/
def npArgmax (v : Fin 4 → ℚ) : Fin 4 :=
  npArgmaxStep v (npArgmaxStep v (npArgmaxStep v 0 1) 2) 3

/-- Python's `round(x, 2)`: round `x * 100` to the nearest integer with ties
going to the even integer (banker's rounding), then divide by 100.
Modelled on exact rationals. -/
def round2 (q : ℚ) : ℚ :=
  let s := q * 100
  let f : ℤ := ⌊s⌋
  let r := s - (f : ℚ)
  let n : ℤ :=
    if r > 1/2 then f + 1
    else if r < 1/2 then f
    else if f % 2 = 0 then f else f + 1
  (n : ℚ) / 100

/-- The `details_map` dictionary lookup inside `_generate_details`, including
the `.get` default "Daño no especificado" for unknown keys. -/
def details_map (class_name : String) : String :=
  if class_name = "01-minor" then "Rayones superficiales o abolladuras menores"
  else if class_name = "02-moderate" then "Abolladuras medias que podrían requerir reparación"
  else if class_name = "03-severe" then "Daños estructurales que afectan integridad"
  else if class_name = "04-no-damage" then "Vehículo en excelente estado sin daños visibles"
  else "Daño no especificado"

/-- Embedding of `DamageAnalyzer._generate_details(class_name, confidence)`.
Note its qualifier boundaries are strict less-than 60 and 80, which differ
at the exact boundaries from the confidence-level boundaries in
`analyze_single_image` (strict greater-than 80 and 60). -/
def generate_details (class_name : String) (confidence : ℚ) : String :=
  let detail := details_map class_name
  if confidence < 60 then detail ++ " (Baja confianza - verificación manual recomendada)"
  else if confidence < 80 then detail ++ " (Confianza media)"
  else detail ++ " (Alta confianza)"

/-- The confidence-level cascade inlined in `analyze_single_image`:
`confidence > 80 → "alta"`, `elif confidence > 60 → "media"`, `else "baja"`. -/
def confidence_level_of (confidence : ℚ) : String :=
  if confidence > 80 then "alta"
  else if confidence > 60 then "media"
  else "baja"

/-- The `result` dictionary built by `analyze_single_image`. `all_predictions`
is keyed in the code by the class-name strings `CLASS_NAMES i`; since
`CLASS_NAMES` is injective on the four indices we key it by the index. -/
structure SingleImageResult where
  damage : String
  damage_label : String
  confidence : ℚ
  confidence_level : String
  description : String
  all_predictions : Fin 4 → ℚ
  details : String
  deriving DecidableEq

/-- Pure core of `analyze_single_image`: everything after
`prediction_array = predictions[0]`, as a function of the prediction vector. -/
def interpret_prediction (v : Fin 4 → ℚ) : SingleImageResult :=
  let main_class_idx := npArgmax v
  let main_class := CLASS_NAMES main_class_idx
  let confidence := v main_class_idx * 100
  { damage := ((((main_class.replace "01-" "").replace "02-" "").replace "03-" "").replace "04-" "")
    damage_label := CLASS_LABELS main_class_idx
    confidence := round2 confidence
    confidence_level := confidence_level_of confidence
    description := CLASS_DESCRIPTIONS main_class_idx
    all_predictions := fun i => v i * 100
    details := generate_details main_class confidence }

/-- Error taxonomy of the analyzer: `modelNotLoaded` is the
`RuntimeError("Modelo no cargado")` raised by `analyze_single_image` and
`analyze_vehicle`; `preprocessingError` covers the exceptions propagated from
`preprocess_image`/`model.predict`; `keyError` is the Python `KeyError` raised
by the `angle_names[angle]` lookup in `analyze_vehicle` on an unknown angle. -/
inductive AnalyzerError : Type
  | modelNotLoaded
  | preprocessingError
  | keyError
  deriving DecidableEq

/-- Embedding of `analyze_single_image`. The opaque pipeline
`preprocess_image` + `model.predict` is abstracted as `classify`, mapping the
image path to a probability vector or failing. The leading
`if not self.model_loaded: raise RuntimeError(...)` guard is the first check. -/
def analyze_single_image (model_loaded : Bool)
    (classify : String → Except AnalyzerError (Fin 4 → ℚ))
    (image_path : String) : Except AnalyzerError SingleImageResult :=
  if !model_loaded then .error .modelNotLoaded
  else
    match classify image_path with
    | .error e => .error e
    | .ok v => .ok (interpret_prediction v)

/-- The `angle_names` dictionary in `analyze_vehicle`; `none` stands for the
`KeyError` a lookup with any other key raises. -/
def angle_names (angle : String) : Option String :=
  if angle = "frontal" then some "Vista Frontal"
  else if angle = "lateral-derecho" then some "Lateral Derecho"
  else if angle = "lateral-izquierdo" then some "Lateral Izquierdo"
  else if angle = "trasero" then some "Vista Trasera"
  else none

/-- The `damage_counts` dictionary in `_generate_general_conclusion`, one
field per fixed label key. -/
structure DamageCounts where
  sinDano : ℕ
  danoLeve : ℕ
  danoModerado : ℕ
  danoSevero : ℕ
  deriving DecidableEq

/-- Number of per-angle results whose `damage_label` equals `label`; the tally
loop of `_generate_general_conclusion` increments `damage_counts[label]` once
per result. -/
def countLabel (results : List SingleImageResult) (label : String) : ℕ :=
  (results.filter (fun r => r.damage_label = label)).length

/-- The `damage_counts` tally over the per-angle results. -/
def countsOf (results : List SingleImageResult) : DamageCounts :=
  { sinDano := countLabel results "Sin Daño"
    danoLeve := countLabel results "Daño Leve"
    danoModerado := countLabel results "Daño Moderado"
    danoSevero := countLabel results "Daño Severo" }

/-- The guarded average
`avg_confidence = total_confidence / angle_count if angle_count > 0 else 0`. -/
def avg_confidence_of (results : List SingleImageResult) : ℚ :=
  if results.length > 0
  then (results.map (fun r => r.confidence)).sum / results.length
  else 0

/-- The priority cascade of `_generate_general_conclusion` choosing
`(overall, conclusion_text, recommendation)` before the caveat step. -/
def verdictOf (counts : DamageCounts) : String × String × String :=
  if counts.danoSevero > 0 then
    ("poor",
     "El vehículo presenta daños severos que requieren atención inmediata.",
     "No recomendado para compra sin evaluación profesional exhaustiva.")
  else if counts.danoModerado > 1 then
    ("acceptable",
     "El vehículo tiene múltiples daños moderados que necesitan reparación.",
     "Evaluar costos de reparación antes de proceder.")
  else if counts.danoLeve > 0 then
    ("good",
     "El vehículo se encuentra en buen estado con daños menores cosméticos.",
     "Adecuado para compra, considerar reparaciones estéticas.")
  else
    ("excellent",
     "El vehículo está en excelente estado sin daños detectados.",
     "Recomendado para compra, verificar mantenimiento interno.")

/-- The low-confidence sentence `conclusion_text += " Nota: ..."` appends when
`avg_confidence < 70`. -/
def caveatText : String :=
  " Nota: La confianza del análisis es baja, se recomienda verificación manual."

/-- The dictionary returned by `_generate_general_conclusion`. -/
structure Conclusion where
  overall : String
  conclusion : String
  recommendation : String
  damage_breakdown : DamageCounts
  average_confidence : ℚ
  deriving DecidableEq

/-- Embedding of `_generate_general_conclusion`. The Python function receives
the full results dict and skips the `conclusion` key; here the input is the
list of per-angle results (the dict's non-conclusion values, in dict order). -/
def generate_general_conclusion (results : List SingleImageResult) : Conclusion :=
  let counts := countsOf results
  let avg := avg_confidence_of results
  let verdict := verdictOf counts
  let conclusion_text :=
    if avg < 70 then verdict.2.1 ++ caveatText else verdict.2.1
  { overall := verdict.1
    conclusion := conclusion_text
    recommendation := verdict.2.2
    damage_breakdown := counts
    average_confidence := round2 avg }

/-- The per-angle loop of `analyze_vehicle`: for each `(angle, image_path)`
pair (dict order) the `angle_names[angle]` lookup used for logging (a
`KeyError` on unknown angles) followed by `analyze_single_image`; the first
exception aborts the loop. The Python dict mixing per-angle results with a
`conclusion` entry is modelled as the pair (association list of per-angle
results, conclusion) built by `analyze_vehicle` below. -/
def analyze_angles (model_loaded : Bool)
    (classify : String → Except AnalyzerError (Fin 4 → ℚ)) :
    List (String × String) → Except AnalyzerError (List (String × SingleImageResult))
  | [] => .ok []
  | ap :: rest =>
    match angle_names ap.1 with
    | none => .error .keyError
    | some _ =>
      match analyze_single_image model_loaded classify ap.2 with
      | .error e => .error e
      | .ok r =>
        match analyze_angles model_loaded classify rest with
        | .error e => .error e
        | .ok rs => .ok ((ap.1, r) :: rs)

/-- Embedding of `analyze_vehicle` proper: the model-loaded guard, the
per-angle loop, then `_generate_general_conclusion` over the collected
results. -/
def analyze_vehicle (model_loaded : Bool)
    (classify : String → Except AnalyzerError (Fin 4 → ℚ))
    (image_paths : List (String × String)) :
    Except AnalyzerError (List (String × SingleImageResult) × Conclusion) :=
  if !model_loaded then .error .modelNotLoaded
  else
    match analyze_angles model_loaded classify image_paths with
    | .error e => .error e
    | .ok results =>
        .ok (results, generate_general_conclusion (results.map (fun x => x.2)))

/-- The `required_angles` list validated by the `/api/analyze` endpoint in
`app.py` before invoking the analyzer. -/
def required_angles : List String :=
  ["frontal", "lateral-derecho", "lateral-izquierdo", "trasero"]

/-! Concrete test fixtures used by the witness theorems. -/

/-- A synthetic per-angle result with the given label and confidence; the
aggregator only reads `damage_label` and `confidence`. -/
def mkTestResult (label : String) (conf : ℚ) : SingleImageResult :=
  { damage := ""
    damage_label := label
    confidence := conf
    confidence_level := ""
    description := ""
    all_predictions := fun _ => 0
    details := "" }

/-! Theorems -/

/-- C2: the confidence tier reported by interpretation is a pure function of
the winning confidence (winning probability × 100): strictly above 80 is
"alta" (high), strictly above 60 and at most 80 is "media" (medium), and at
most 60 — including exactly 60, and exactly 80 for medium — is "baja"
(low). -/
theorem C2_confidence_tier (v : Fin 4 → ℚ) :
    (interpret_prediction v).confidence_level =
      confidence_level_of (v (npArgmax v) * 100) ∧
    (∀ c : ℚ, 80 < c → confidence_level_of c = "alta") ∧
    (∀ c : ℚ, 60 < c → c ≤ 80 → confidence_level_of c = "media") ∧
    (∀ c : ℚ, c ≤ 60 → confidence_level_of c = "baja") := by
  refine ⟨rfl, fun c hc => ?_, fun c hc1 hc2 => ?_, fun c hc => ?_⟩
  · unfold confidence_level_of
    rw [if_pos (by linarith)]
  · unfold confidence_level_of
    rw [if_neg (by linarith), if_pos (by linarith)]
  · unfold confidence_level_of
    rw [if_neg (by linarith), if_neg (by linarith)]

/-- Witness for C2 at the boundary confidences 81, 80, 61 and 60. -/
theorem C2_confidence_tier_witness :
    confidence_level_of 81 = "alta" ∧ confidence_level_of 80 = "media" ∧
    confidence_level_of 61 = "media" ∧ confidence_level_of 60 = "baja" := by
  obtain ⟨-, h1, h2, h3⟩ := C2_confidence_tier (fun _ => 0)
  exact ⟨h1 81 (by norm_num), h2 80 (by norm_num) (by norm_num),
    h2 61 (by norm_num) (by norm_num), h3 60 (by norm_num)⟩

/-- C3: for a probability vector summing to 1, interpretation's main class is
the argmax of the vector, computed with np.argmax's first-occurrence rule:
the selected index carries a maximal probability, and any index tied with the
maximum is at least the selected one (lowest index wins exact ties). -/
theorem C3_argmax_tiebreak (v : Fin 4 → ℚ)
    (hsum : v 0 + v 1 + v 2 + v 3 = 1) :
    (interpret_prediction v).damage_label = CLASS_LABELS (npArgmax v) ∧
    (∀ j : Fin 4, v j ≤ v (npArgmax v)) ∧
    (∀ j : Fin 4, v j = v (npArgmax v) → npArgmax v ≤ j) := by
  refine ⟨rfl, ?_, ?_⟩ <;>
    · unfold npArgmax npArgmaxStep
      split_ifs with h1 h2 h3 <;>
        intro j <;>
        fin_cases j <;>
        simp_all <;>
        first
          | rfl
          | decide
          | linarith

/-- Concrete probability vector for the C3 witness: an exact four-way tie. -/
def v3w : Fin 4 → ℚ
  | 0 => 1/4
  | 1 => 1/4
  | 2 => 1/4
  | 3 => 1/4

/-- Witness for C3 on an exact four-way tie: index 2 attains the maximum, and
the tie-break sends the argmax to an index at most 2 (in fact 0). -/
theorem C3_argmax_tiebreak_witness :
    v3w 0 + v3w 1 + v3w 2 + v3w 3 = 1 ∧
    v3w 2 ≤ v3w (npArgmax v3w) ∧ npArgmax v3w ≤ 2 :=
  ⟨by norm_num [v3w],
   (C3_argmax_tiebreak v3w (by norm_num [v3w])).2.1 2,
   (C3_argmax_tiebreak v3w (by norm_num [v3w])).2.2 2
     (by norm_num [v3w, npArgmax, npArgmaxStep])⟩

/-- C6: round-trip consistency of interpretation — re-deriving the confidence
by rounding the breakdown entry of the main class (a raw, unrounded
percentage) gives exactly the reported `confidence` field (the winning
probability × 100 rounded to 2 decimals). -/
theorem C6_roundtrip (v : Fin 4 → ℚ)
    (hsum : v 0 + v 1 + v 2 + v 3 = 1) :
    round2 ((interpret_prediction v).all_predictions (npArgmax v)) =
      (interpret_prediction v).confidence := rfl

/-- Concrete probability vector for the C6 witness. -/
def v6w : Fin 4 → ℚ
  | 0 => 81/100
  | 1 => 0
  | 2 => 0
  | 3 => 19/100

/-- Witness for C6 at the vector (0.81, 0, 0, 0.19). -/
theorem C6_roundtrip_witness :
    v6w 0 + v6w 1 + v6w 2 + v6w 3 = 1 ∧
    round2 ((interpret_prediction v6w).all_predictions (npArgmax v6w)) =
      (interpret_prediction v6w).confidence :=
  ⟨by norm_num [v6w], C6_roundtrip v6w (by norm_num [v6w])⟩

/-- C7: with the model not loaded, both single-image analysis and full-vehicle
analysis fail with the model-unavailable error for every classifier and every
input — in particular no classification is attempted (the outcome does not
depend on `classify`) and no result is produced. -/
theorem C7_model_not_loaded
    (classify : String → Except AnalyzerError (Fin 4 → ℚ))
    (image_path : String) (image_paths : List (String × String)) :
    analyze_single_image false classify image_path =
      .error .modelNotLoaded ∧
    analyze_vehicle false classify image_paths =
      .error .modelNotLoaded :=
  ⟨rfl, rfl⟩

/-- C10: conclusion generation over an empty result mapping returns normally,
with average confidence 0 (the `angle_count > 0` guard), all damage counts 0,
and — all counts being zero — overall verdict "excellent". -/
theorem C10_empty_results :
    (generate_general_conclusion []).average_confidence = 0 ∧
    (generate_general_conclusion []).overall = "excellent" ∧
    (generate_general_conclusion []).damage_breakdown = ⟨0, 0, 0, 0⟩ := by
  refine ⟨?_, rfl, rfl⟩
  norm_num [generate_general_conclusion, avg_confidence_of, round2]

/-- C1: the aggregated verdict follows the strict priority cascade, first
match winning: any Severe result gives "poor"; else more than one Moderate
gives "acceptable"; else any Minor gives "good"; else "excellent". Counts are
occurrences of the corresponding damage label among the 4 results. -/
theorem C1_overall_priority (results : List SingleImageResult)
    (h : results.length = 4) :
    (generate_general_conclusion results).overall =
      if countLabel results "Daño Severo" > 0 then "poor"
      else if countLabel results "Daño Moderado" > 1 then "acceptable"
      else if countLabel results "Daño Leve" > 0 then "good"
      else "excellent" := by
  simp only [generate_general_conclusion, verdictOf, countsOf]
  split_ifs <;> rfl

/-- Concrete 4-angle results for the C1 witness: one Severe, one Minor, two
NoDamage. -/
def lst1 : List SingleImageResult :=
  [mkTestResult "Daño Severo" 90, mkTestResult "Daño Leve" 90,
   mkTestResult "Sin Daño" 90, mkTestResult "Sin Daño" 90]

/-- Witness for C1: with one Severe among the four results the cascade is
entered at its first branch and the verdict is "poor". -/
theorem C1_overall_priority_witness :
    lst1.length = 4 ∧
    (generate_general_conclusion lst1).overall =
      (if countLabel lst1 "Daño Severo" > 0 then "poor"
       else if countLabel lst1 "Daño Moderado" > 1 then "acceptable"
       else if countLabel lst1 "Daño Leve" > 0 then "good"
       else "excellent") ∧
    (generate_general_conclusion lst1).overall = "poor" := by
  refine ⟨rfl, C1_overall_priority lst1 rfl, ?_⟩
  rw [C1_overall_priority lst1 rfl]
  norm_num [countLabel, lst1, mkTestResult]

/-- Probability vector refuting C4 as stated: winning probability 0.6, so the
winning confidence is exactly 60. -/
def v4c : Fin 4 → ℚ
  | 0 => 3/5
  | 1 => 2/5
  | 2 => 0
  | 3 => 0

/-- Counterexample to C4: at winning confidence exactly 60 the reported tier
is "baja" (low), yet the detail carries the medium-confidence qualifier, not
the low-tier manual-verification qualifier the claim requires. -/
theorem C4_detail_counterexample :
    (interpret_prediction v4c).confidence_level = "baja" ∧
    (interpret_prediction v4c).details =
      "Rayones superficiales o abolladuras menores (Confianza media)" ∧
    (interpret_prediction v4c).details ≠
      details_map "01-minor" ++
        " (Baja confianza - verificación manual recomendada)" := by
  have hd : (interpret_prediction v4c).details =
      "Rayones superficiales o abolladuras menores (Confianza media)" := by
    norm_num [interpret_prediction, npArgmax, npArgmaxStep, v4c,
      generate_details, details_map, CLASS_NAMES]
    rfl
  refine ⟨?_, hd, ?_⟩
  · norm_num [interpret_prediction, npArgmax, npArgmaxStep, v4c,
      confidence_level_of]
  · rw [hd]
    decide

/-- C4 as amended: the detail is the fixed per-class description suffixed
with a qualifier chosen directly from the confidence with its own boundaries
— strictly below 60 gives the manual-verification qualifier, at least 60 and
strictly below 80 gives "(Confianza media)", and at least 80 gives
"(Alta confianza)". This agrees with the confidence tier except at exactly 60
(tier low, medium qualifier) and exactly 80 (tier medium, high qualifier). -/
theorem C4_detail_amended (v : Fin 4 → ℚ) :
    (interpret_prediction v).details =
      generate_details (CLASS_NAMES (npArgmax v)) (v (npArgmax v) * 100) ∧
    (∀ (name : String) (c : ℚ), c < 60 →
      generate_details name c =
        details_map name ++
          " (Baja confianza - verificación manual recomendada)") ∧
    (∀ (name : String) (c : ℚ), 60 ≤ c → c < 80 →
      generate_details name c = details_map name ++ " (Confianza media)") ∧
    (∀ (name : String) (c : ℚ), 80 ≤ c →
      generate_details name c = details_map name ++ " (Alta confianza)") := by
  refine ⟨rfl, fun name c hc => ?_, fun name c hc1 hc2 => ?_,
    fun name c hc => ?_⟩
  · simp only [generate_details]
    rw [if_pos hc]
  · simp only [generate_details]
    rw [if_neg (by linarith), if_pos hc2]
  · simp only [generate_details]
    rw [if_neg (by linarith), if_neg (by linarith)]

/-- Witness for the amended C4 at confidence 59 on the severe class. -/
theorem C4_detail_amended_witness :
    (59 : ℚ) < 60 ∧
    generate_details "03-severe" 59 =
      details_map "03-severe" ++
        " (Baja confianza - verificación manual recomendada)" :=
  ⟨by norm_num,
   (C4_detail_amended (fun _ => 0)).2.1 "03-severe" 59 (by norm_num)⟩

/-- C5: the low-confidence caveat is appended to the conclusion text exactly
when the average confidence is strictly below 70 (the appended text differs
from the base text, so the append is detectable), irrespective of which
verdict branch fired; the overall tag, recommendation and damage breakdown
are those computed without the caveat step. -/
theorem C5_caveat_iff (results : List SingleImageResult)
    (h : results.length = 4) :
    ((generate_general_conclusion results).conclusion =
      if avg_confidence_of results < 70
      then (verdictOf (countsOf results)).2.1 ++ caveatText
      else (verdictOf (countsOf results)).2.1) ∧
    (verdictOf (countsOf results)).2.1 ++ caveatText ≠
      (verdictOf (countsOf results)).2.1 ∧
    (generate_general_conclusion results).overall =
      (verdictOf (countsOf results)).1 ∧
    (generate_general_conclusion results).recommendation =
      (verdictOf (countsOf results)).2.2 ∧
    (generate_general_conclusion results).damage_breakdown =
      countsOf results := by
  refine ⟨rfl, ?_, rfl, rfl, rfl⟩
  intro heq
  have h2 := congrArg String.length heq
  rw [String.length_append] at h2
  have h3 : 0 < caveatText.length := by decide
  omega

/-- Concrete 4-angle results for the C5 witness: all NoDamage, all at
confidence 50, so the average confidence 50 is below 70. -/
def lst5 : List SingleImageResult :=
  [mkTestResult "Sin Daño" 50, mkTestResult "Sin Daño" 50,
   mkTestResult "Sin Daño" 50, mkTestResult "Sin Daño" 50]

/-- Witness for C5: the average confidence of `lst5` is below 70 and the
conclusion text is characterized by the caveat conditional. -/
theorem C5_caveat_iff_witness :
    lst5.length = 4 ∧ avg_confidence_of lst5 < 70 ∧
    (generate_general_conclusion lst5).conclusion =
      (if avg_confidence_of lst5 < 70
       then (verdictOf (countsOf lst5)).2.1 ++ caveatText
       else (verdictOf (countsOf lst5)).2.1) :=
  ⟨rfl, by norm_num [avg_confidence_of, lst5, mkTestResult],
   (C5_caveat_iff lst5 rfl).1⟩

/-- Partition lemma for the label tally: when every result carries one of the
four fixed labels, the four counts sum to the number of results. -/
theorem countLabel_partition (rs : List SingleImageResult)
    (hl : ∀ r ∈ rs, r.damage_label = "Sin Daño" ∨ r.damage_label = "Daño Leve"
      ∨ r.damage_label = "Daño Moderado" ∨ r.damage_label = "Daño Severo") :
    countLabel rs "Sin Daño" + countLabel rs "Daño Leve" +
      countLabel rs "Daño Moderado" + countLabel rs "Daño Severo" =
      rs.length := by
  induction rs with
  | nil => rfl
  | cons r rs ih =>
    have hr := hl r (List.mem_cons_self r rs)
    have hrs : ∀ x ∈ rs, x.damage_label = "Sin Daño" ∨
        x.damage_label = "Daño Leve" ∨ x.damage_label = "Daño Moderado" ∨
        x.damage_label = "Daño Severo" :=
      fun x hx => hl x (List.mem_cons_of_mem r hx)
    have ihh := ih hrs
    rcases hr with hcase | hcase | hcase | hcase <;>
      simp [countLabel, List.filter_cons, hcase] at ihh ⊢ <;>
      omega

/-- C8: over a 4-element list of per-angle results (each carrying one of the
four fixed damage labels, as every interpreter output does), the four counts
of the returned damage breakdown sum to exactly 4. -/
theorem C8_counts_sum (results : List SingleImageResult)
    (h : results.length = 4)
    (hl : ∀ r ∈ results, r.damage_label = "Sin Daño" ∨
      r.damage_label = "Daño Leve" ∨ r.damage_label = "Daño Moderado" ∨
      r.damage_label = "Daño Severo") :
    (generate_general_conclusion results).damage_breakdown.sinDano +
      (generate_general_conclusion results).damage_breakdown.danoLeve +
      (generate_general_conclusion results).damage_breakdown.danoModerado +
      (generate_general_conclusion results).damage_breakdown.danoSevero =
      4 := by
  have hp := countLabel_partition results hl
  have hb : (generate_general_conclusion results).damage_breakdown =
      countsOf results := rfl
  rw [hb]
  simp only [countsOf]
  omega

/-- Concrete 4-angle results for the C8 witness: one of each class. -/
def lst8 : List SingleImageResult :=
  [mkTestResult "Sin Daño" 90, mkTestResult "Daño Leve" 80,
   mkTestResult "Daño Moderado" 70, mkTestResult "Daño Severo" 60]

/-- Witness for C8 on one result of each class. -/
theorem C8_counts_sum_witness :
    lst8.length = 4 ∧
    (generate_general_conclusion lst8).damage_breakdown.sinDano +
      (generate_general_conclusion lst8).damage_breakdown.danoLeve +
      (generate_general_conclusion lst8).damage_breakdown.danoModerado +
      (generate_general_conclusion lst8).damage_breakdown.danoSevero = 4 :=
  ⟨rfl, C8_counts_sum lst8 rfl
    (by intro r hr; fin_cases hr <;> simp [lst8, mkTestResult])⟩

/-- Counterexample to C9 as stated: the angle identifiers accepted and
produced by the code are the Spanish strings, not `front`, `rear`, `left`,
`right` — `front` is not an accepted key (the analyzer's angle-name lookup
has no entry for it), while `frontal` is. -/
theorem C9_angle_ids_counterexample :
    required_angles ≠ ["front", "rear", "left", "right"] ∧
    "front" ∉ required_angles ∧
    angle_names "front" = none ∧
    angle_names "frontal" = some "Vista Frontal" :=
  ⟨by decide, by decide, rfl, rfl⟩

/-- C9 as amended: a full-vehicle analysis accepts and returns per-angle
results keyed by exactly the 4 fixed angle identifiers `frontal`,
`lateral-derecho`, `lateral-izquierdo`, `trasero` (the front, right-side,
left-side and rear views), plus one derived conclusion: when the model is
loaded, the input is keyed by exactly those identifiers and every
classification succeeds, the analysis returns the per-angle results keyed by
the same identifiers together with the conclusion. -/
theorem C9_angle_ids_amended
    (classify : String → Except AnalyzerError (Fin 4 → ℚ))
    (paths : List (String × String))
    (hkeys : paths.map Prod.fst = required_angles)
    (hok : ∀ p, ∃ w, classify p = .ok w) :
    ∃ out : List (String × SingleImageResult) × Conclusion,
      analyze_vehicle true classify paths = .ok out ∧
      out.1.map Prod.fst = required_angles := by
  rcases paths with _ | ⟨⟨a1, p1⟩, _ | ⟨⟨a2, p2⟩, _ | ⟨⟨a3, p3⟩,
    _ | ⟨⟨a4, p4⟩, _ | ⟨⟨a5, p5⟩, rest⟩⟩⟩⟩⟩ <;>
    simp [required_angles] at hkeys
  obtain ⟨ha1, ha2, ha3, ha4⟩ := hkeys
  subst ha1 ha2 ha3 ha4
  obtain ⟨w1, hw1⟩ := hok p1
  obtain ⟨w2, hw2⟩ := hok p2
  obtain ⟨w3, hw3⟩ := hok p3
  obtain ⟨w4, hw4⟩ := hok p4
  refine ⟨?_, ?_, ?_⟩
  · exact ([("frontal", interpret_prediction w1),
      ("lateral-derecho", interpret_prediction w2),
      ("lateral-izquierdo", interpret_prediction w3),
      ("trasero", interpret_prediction w4)],
      generate_general_conclusion
        [interpret_prediction w1, interpret_prediction w2,
         interpret_prediction w3, interpret_prediction w4])
  · simp [analyze_vehicle, analyze_angles, analyze_single_image,
      angle_names, hw1, hw2, hw3, hw4]
  · rfl

/-- Concrete probability vector for the C9 witness. -/
def v9w : Fin 4 → ℚ
  | 0 => 0
  | 1 => 0
  | 2 => 0
  | 3 => 1

/-- Concrete classifier for the C9 witness, succeeding on every path. -/
def classify9 : String → Except AnalyzerError (Fin 4 → ℚ) :=
  fun _ => .ok v9w

/-- Concrete upload mapping for the C9 witness. -/
def paths9 : List (String × String) :=
  [("frontal", "f.jpg"), ("lateral-derecho", "ld.jpg"),
   ("lateral-izquierdo", "li.jpg"), ("trasero", "t.jpg")]

/-- Witness for the amended C9: on inputs keyed by the four Spanish angle
identifiers with an always-succeeding classifier, the analysis succeeds. -/
theorem C9_angle_ids_amended_witness :
    paths9.map Prod.fst = required_angles ∧
    (analyze_vehicle true classify9 paths9).toOption.isSome = true := by
  refine ⟨rfl, ?_⟩
  obtain ⟨out, h1, -⟩ :=
    C9_angle_ids_amended classify9 paths9 rfl (fun p => ⟨v9w, rfl⟩)
  rw [h1]
  rfl
